import Mathlib

/-!
Shallow embedding of the cgroups memory controller and prometheus metrics
collector (Go sources in `prometheus/metrics.go`: package `prometheus`
collector part and package `cgroups` memory controller part).

File-system effects are modelled by an explicit oracle (`World`) giving the
outcome of each operation, and every operation returns the ordered trace of
file-system operations it attempted together with its Go result.
-/

/-- An OS-level I/O error, as seen by the Go code. `ebusy` stands for a
`*os.PathError` wrapping `syscall.EBUSY`; `other t` is any other error value,
kept opaque under an identifying tag. -/
inductive IOErr where
  | ebusy
  | other (tag : Nat)
deriving DecidableEq

/-- A Go `error` value as produced by this code: either an I/O error
propagated unchanged, an error built from a message string
(`errors.New` / `fmt.Errorf`), or a raw `syscall.Errno`. -/
inductive GoErr where
  | io (e : IOErr)
  | msg (s : String)
  | errno (n : Nat)
deriving DecidableEq

/-- Outcome of a Go function returning `error`, extended with the runtime
panic produced by a nil-pointer dereference. -/
inductive GoOutcome where
  | ok
  | err (e : GoErr)
  | panics
deriving DecidableEq

/-- One attempted file-system operation, recorded in program order. -/
inductive FsOp where
  | mkdirAll (path : String)
  | writeFile (path : String) (data : String)
  | readFile (path : String)
  | openFile (path : String)
  | closeFile (path : String)
  | eventfd (fd : Nat)
  | closeFD (fd : Nat)
deriving DecidableEq

/-! ### Go `path/filepath` (unix): `Join` and `Clean`

`filepath.Join(a, b)` joins the non-empty elements with `/` and applies the
purely lexical `Clean`. `Clean` is modelled by the standard component-stack
formulation of Go's algorithm: empty and `.` components are dropped, `..`
pops a previous non-`..` component (or is kept when the path is relative and
nothing can be popped; dropped at the root of an absolute path). -/

/-- Split a character list on a separator (the list-of-components form of
`strings.Split`); structural recursion so that proofs can evaluate it. -/
def splitOnChar (sep : Char) : List Char → List (List Char)
  | [] => [[]]
  | c :: rest =>
    match splitOnChar sep rest with
    | [] => [[c]]
    | h :: t => if c = sep then ([] : List Char) :: h :: t else (c :: h) :: t

/-- Join components with `/` (the inverse of splitting). -/
def joinComponents : List String → String
  | [] => ""
  | [x] => x
  | x :: rest => x ++ "/" ++ joinComponents rest

/-- Process one path component against the stack of kept components
(stored in reverse). `rooted` tells whether the whole path is absolute. -/
def cleanPush (rooted : Bool) (stack : List String) (c : String) : List String :=
  if c = "" ∨ c = "." then stack
  else if c = ".." then
    match stack with
    | [] => if rooted then [] else [".."]
    | top :: rest => if top = ".." then c :: stack else rest
  else c :: stack

/-- Go `filepath.Clean` (unix), lexical normalization. -/
def filepathClean (path : String) : String :=
  if path = "" then "."
  else
    let rooted := match path.data with
      | '/' :: _ => true
      | _ => false
    let comps := (splitOnChar '/' path.data).map String.mk
    let stack := comps.foldl (cleanPush rooted) []
    let body := joinComponents stack.reverse
    if rooted then
      if body = "" then "/" else "/" ++ body
    else
      if body = "" then "." else body

/-- Go `filepath.Join` (unix), two-argument form. -/
def filepathJoin (a b : String) : String :=
  if a = "" then
    if b = "" then "" else filepathClean b
  else filepathClean (a ++ "/" ++ b)

/-! ### Data model: `specs.LinuxResources` (fields used by this code) -/

/-- `specs.LinuxMemory`: the nilable memory knobs. `none` is a nil pointer
("do not modify"); `some v` is a provided value (a `uint64`, modelled as a
natural number since the code only formats it as decimal text). -/
structure LinuxMemory where
  Limit : Option Nat
  Swap : Option Nat
  Kernel : Option Nat
  KernelTCP : Option Nat
  Swappiness : Option Nat
deriving DecidableEq

/-- `specs.LinuxResources`, restricted to the fields this code reads:
the nilable `Memory` sub-record and the nilable `DisableOOMKiller` flag. -/
structure LinuxResources where
  Memory : Option LinuxMemory
  DisableOOMKiller : Option Bool
deriving DecidableEq

/-- The outcome oracle for file-system operations: for each operation and
argument it fixes the result the kernel would return. `readUintResult`
stands for the repository helper `readUint` (reads a file and parses an
unsigned decimal), which is outside the included source; it is kept
abstract as "the parsed value, or a read/parse error".
`readLines` gives the lines of a text file (or an open/read error),
`openResult` an opened file's descriptor, `openWrite` the outcome of opening
a file write-only, and `eventfd2` the outcome of the `eventfd2` syscall
(`.error n` is the raw errno, `.ok fd` the created descriptor). -/
structure World where
  mkdirResult : String → Option IOErr
  writeResult : String → String → Option IOErr
  readUintResult : String → Except IOErr Nat
  readLines : String → Except IOErr (List String)
  openResult : String → Except IOErr Nat
  openWrite : String → Option IOErr
  eventfd2 : Except Nat Nat

/-! ### The memory controller -/

/-- `memoryController`: holds only its root path. -/
structure memoryController where
  root : String
deriving DecidableEq

/-- `NewMemory(root)`: the controller rooted at `filepath.Join(root, "memory")`. -/
def NewMemory (root : String) : memoryController :=
  { root := filepathJoin root "memory" }

/-- `(*memoryController).Path`: pure join of the controller root and the
relative cgroup path; no existence check, no sanitization. -/
def memoryController.Path (m : memoryController) (path : String) : String :=
  filepathJoin m.root path

/-- One entry of the ordered limit-settings list: a control-file suffix and
the nilable value to write. -/
structure memorySettings where
  name : String
  value : Option Nat
deriving DecidableEq

/-- `getOomControlValue`: `1` exactly when `DisableOOMKiller` is provided
and true, otherwise nil. -/
def getOomControlValue (resources : LinuxResources) : Option Nat :=
  match resources.DisableOOMKiller with
  | some true => some 1
  | _ => none

/-- `getMemorySettings`: the ordered settings list
(limit, swap, kernel, kernel-TCP, oom_control, swappiness).
Callers nil-check `resources.Memory` first; the `none` branch is unreachable
from `Create`/`Update` (Go would panic there). -/
def getMemorySettings (resources : LinuxResources) : List memorySettings :=
  match resources.Memory with
  | none => []
  | some mem =>
    [ { name := "limit_in_bytes", value := mem.Limit },
      { name := "memsw.limit_in_bytes", value := mem.Swap },
      { name := "kmem.limit_in_bytes", value := mem.Kernel },
      { name := "kmem.tcp.limit_in_bytes", value := mem.KernelTCP },
      { name := "oom_control", value := getOomControlValue resources },
      { name := "swappiness", value := mem.Swappiness } ]

/-- `(*memoryController).set`: write each provided setting, in list order, to
`memory.<name>` under the cgroup directory as decimal text; a nil value is
skipped entirely; the first write error aborts the rest. -/
def memoryController.set (m : memoryController) (w : World) (path : String) :
    List memorySettings → List FsOp × Option GoErr
  | [] => ([], none)
  | t :: rest =>
    match t.value with
    | none => m.set w path rest
    | some v =>
      let p := filepathJoin (m.Path path) ("memory." ++ t.name)
      match w.writeResult p (toString v) with
      | some e => ([FsOp.writeFile p (toString v)], some (GoErr.io e))
      | none =>
        let (ops, r) := m.set w path rest
        (FsOp.writeFile p (toString v) :: ops, r)

/-- The message of the error `checkEBUSY` builds for `EBUSY`. -/
def kmemBusyMessage : String :=
  "failed to set memory.kmem.limit_in_bytes, because either tasks have already joined this cgroup or it has children"

/-- `checkEBUSY`: translate an `EBUSY` path error into the descriptive
message; return any other error unchanged. -/
def checkEBUSY : IOErr → GoErr
  | IOErr.ebusy => GoErr.msg kmemBusyMessage
  | e => GoErr.io e

/-- `(*memoryController).Create`: make the cgroup directory; a nil resources
pointer is then dereferenced (panic); nil `Memory` returns early; a provided
kernel limit triggers the probe writes of `1` then `-1` to
`memory.kmem.limit_in_bytes` (errors filtered through `checkEBUSY`);
finally the settings list is applied. -/
def memoryController.Create (m : memoryController) (w : World) (path : String)
    (resources : Option LinuxResources) : List FsOp × GoOutcome :=
  let dir := m.Path path
  match w.mkdirResult dir with
  | some e => ([FsOp.mkdirAll dir], GoOutcome.err (GoErr.io e))
  | none =>
    match resources with
    | none => ([FsOp.mkdirAll dir], GoOutcome.panics)
    | some res =>
      match res.Memory with
      | none => ([FsOp.mkdirAll dir], GoOutcome.ok)
      | some mem =>
        let probe :=
          match mem.Kernel with
          | none => ([], none)
          | some _ =>
            let kp := filepathJoin dir "memory.kmem.limit_in_bytes"
            match w.writeResult kp "1" with
            | some e => ([FsOp.writeFile kp "1"], some (checkEBUSY e))
            | none =>
              match w.writeResult kp "-1" with
              | some e => ([FsOp.writeFile kp "1", FsOp.writeFile kp "-1"], some (checkEBUSY e))
              | none => ([FsOp.writeFile kp "1", FsOp.writeFile kp "-1"], none)
        match probe with
        | (ops, some e) => (FsOp.mkdirAll dir :: ops, GoOutcome.err e)
        | (ops, none) =>
          match m.set w path (getMemorySettings res) with
          | (sops, some e) => (FsOp.mkdirAll dir :: ops ++ sops, GoOutcome.err e)
          | (sops, none) => (FsOp.mkdirAll dir :: ops ++ sops, GoOutcome.ok)

/-- The guard `g` of `Update`: a knob is non-nil with a positive value. -/
def updGuard : Option Nat → Bool
  | none => false
  | some v => 0 < v

/-- Exchange the first two entries of a list
(`settings[0], settings[1] = settings[1], settings[0]`). -/
def swapFirstTwo : List memorySettings → List memorySettings
  | a :: b :: rest => b :: a :: rest
  | l => l

/-- `(*memoryController).Update`: a nil resources pointer is dereferenced
(panic); nil `Memory` is a no-op; when both the memory limit and the swap
limit are provided positive, the current on-disk memory limit is read first
(a read error aborts the call) and, when it is smaller than the new swap
limit, the first two settings entries are exchanged; then the settings are
applied. -/
def memoryController.Update (m : memoryController) (w : World) (path : String)
    (resources : Option LinuxResources) : List FsOp × GoOutcome :=
  match resources with
  | none => ([], GoOutcome.panics)
  | some res =>
    match res.Memory with
    | none => ([], GoOutcome.ok)
    | some mem =>
      let settings := getMemorySettings res
      if updGuard mem.Limit ∧ updGuard mem.Swap then
        let p := filepathJoin (m.Path path) "memory.limit_in_bytes"
        match w.readUintResult p with
        | Except.error e => ([FsOp.readFile p], GoOutcome.err (GoErr.io e))
        | Except.ok current =>
          let settings2 :=
            if current < mem.Swap.getD 0 then swapFirstTwo settings else settings
          match m.set w path settings2 with
          | (ops, some e) => (FsOp.readFile p :: ops, GoOutcome.err e)
          | (ops, none) => (FsOp.readFile p :: ops, GoOutcome.ok)
      else
        match m.set w path settings with
        | (ops, some e) => (ops, GoOutcome.err e)
        | (ops, none) => (ops, GoOutcome.ok)

/-! ### Stat: `parseStats`, `parseKV` and the snapshot structures -/

/-- One usage class of the memory snapshot (`cgroups.MemoryEntry`). -/
structure MemoryEntry where
  Limit : Nat
  Usage : Nat
  Max : Nat
  Failcnt : Nat
deriving DecidableEq

/-- `cgroups.MemoryStat`: the named counters read from `memory.stat` plus
the four usage classes. -/
structure MemoryStat where
  Cache : Nat
  RSS : Nat
  RSSHuge : Nat
  MappedFile : Nat
  Dirty : Nat
  Writeback : Nat
  PgPgIn : Nat
  PgPgOut : Nat
  PgFault : Nat
  PgMajFault : Nat
  InactiveAnon : Nat
  ActiveAnon : Nat
  InactiveFile : Nat
  ActiveFile : Nat
  Unevictable : Nat
  HierarchicalMemoryLimit : Nat
  HierarchicalSwapLimit : Nat
  TotalCache : Nat
  TotalRSS : Nat
  TotalRSSHuge : Nat
  TotalMappedFile : Nat
  TotalDirty : Nat
  TotalWriteback : Nat
  TotalPgPgIn : Nat
  TotalPgPgOut : Nat
  TotalPgFault : Nat
  TotalPgMajFault : Nat
  TotalInactiveAnon : Nat
  TotalActiveAnon : Nat
  TotalInactiveFile : Nat
  TotalActiveFile : Nat
  TotalUnevictable : Nat
  Usage : MemoryEntry
  Swap : MemoryEntry
  Kernel : MemoryEntry
  KernelTCP : MemoryEntry
deriving DecidableEq

/-- Accumulate decimal digits; any non-digit character rejects. -/
def parseDecAux (acc : Nat) : List Char → Option Nat
  | [] => some acc
  | c :: rest => if c.isDigit then parseDecAux (acc * 10 + (c.toNat - 48)) rest else none

/-- Parse a non-empty all-digit string as an unsigned decimal. -/
def parseDec (s : String) : Option Nat :=
  match s.data with
  | [] => none
  | l => parseDecAux 0 l

/-- Modelled from the spec: `parseKV` lives in the repository outside the
included source. Per the spec, counter files are newline-delimited
`key value` pairs (space-separated) and a malformed line is a parse error:
a line must split into exactly a key field and an unsigned decimal value. -/
def parseKV (raw : String) : Except GoErr (String × Nat) :=
  match ((splitOnChar ' ' raw.data).map String.mk).filter (fun s => s ≠ "") with
  | [k, v] =>
    match parseDec v with
    | some n => Except.ok (k, n)
    | none => Except.error (GoErr.msg "invalid format")
  | _ => Except.error (GoErr.msg "invalid format")

/-- Fold the parsed lines into the counter map (a total function with the
Go-map default of `0` for absent keys); the first malformed line aborts. -/
def parseLines : List String → (String → Nat) → Except GoErr (String → Nat)
  | [], acc => Except.ok acc
  | l :: rest, acc =>
    match parseKV l with
    | Except.error e => Except.error e
    | Except.ok (k, v) => parseLines rest (fun s => if s = k then v else acc s)

/-- `(*memoryController).parseStats`: open `memory.stat` under the cgroup
directory and parse every line. -/
def memoryController.parseStats (m : memoryController) (w : World) (path : String) :
    Except GoErr (String → Nat) :=
  match w.readLines (filepathJoin (m.Path path) "memory.stat") with
  | Except.error e => Except.error (GoErr.io e)
  | Except.ok lines => parseLines lines (fun _ => 0)

/-- The dimension-qualified file name `memory[.module].name` used by `Stat`
for the usage classes. -/
def statEntryFile (module name : String) : String :=
  String.intercalate "."
    (["memory"] ++ (if module = "" then [] else [module]) ++ [name])

/-- The per-class file suffixes `Stat` reads, in source order. -/
def entryFileNames : List String :=
  ["usage_in_bytes", "max_usage_in_bytes", "failcnt", "limit_in_bytes"]

/-- The module qualifiers of the four usage classes, in source order. -/
def entryModules : List String :=
  ["", "memsw", "kmem", "kmem.tcp"]

/-- Read the four files of one usage class, in source order; the first
failing read aborts. -/
def readMemoryEntry (w : World) (dir module : String) : Except IOErr MemoryEntry :=
  match w.readUintResult (filepathJoin dir (statEntryFile module "usage_in_bytes")) with
  | Except.error e => Except.error e
  | Except.ok u =>
    match w.readUintResult (filepathJoin dir (statEntryFile module "max_usage_in_bytes")) with
    | Except.error e => Except.error e
    | Except.ok mx =>
      match w.readUintResult (filepathJoin dir (statEntryFile module "failcnt")) with
      | Except.error e => Except.error e
      | Except.ok fc =>
        match w.readUintResult (filepathJoin dir (statEntryFile module "limit_in_bytes")) with
        | Except.error e => Except.error e
        | Except.ok li => Except.ok { Usage := u, Max := mx, Failcnt := fc, Limit := li }

/-- Lift an I/O error into a Go error. -/
def ioe : Except IOErr α → Except GoErr α
  | Except.error e => Except.error (GoErr.io e)
  | Except.ok v => Except.ok v

/-- `(*memoryController).Stat`: parse `memory.stat` into the counter map,
then read the sixteen usage files (four classes, four files each); any
failure is propagated, a key absent from the map reads as zero. -/
def memoryController.Stat (m : memoryController) (w : World) (path : String) :
    Except GoErr MemoryStat :=
  match m.parseStats w path with
  | Except.error e => Except.error e
  | Except.ok raw =>
  match ioe (readMemoryEntry w (m.Path path) "") with
  | Except.error e => Except.error e
  | Except.ok usage =>
  match ioe (readMemoryEntry w (m.Path path) "memsw") with
  | Except.error e => Except.error e
  | Except.ok swap =>
  match ioe (readMemoryEntry w (m.Path path) "kmem") with
  | Except.error e => Except.error e
  | Except.ok kernel =>
  match ioe (readMemoryEntry w (m.Path path) "kmem.tcp") with
  | Except.error e => Except.error e
  | Except.ok kernelTCP =>
  Except.ok
    { Cache := raw "cache"
      RSS := raw "rss"
      RSSHuge := raw "rss_huge"
      MappedFile := raw "mapped_file"
      Dirty := raw "dirty"
      Writeback := raw "writeback"
      PgPgIn := raw "pgpgin"
      PgPgOut := raw "pgpgout"
      PgFault := raw "pgfault"
      PgMajFault := raw "pgmajfault"
      InactiveAnon := raw "inactive_anon"
      ActiveAnon := raw "active_anon"
      InactiveFile := raw "inactive_file"
      ActiveFile := raw "active_file"
      Unevictable := raw "unevictable"
      HierarchicalMemoryLimit := raw "hierarchical_memory_limit"
      HierarchicalSwapLimit := raw "hierarchical_memsw_limit"
      TotalCache := raw "total_cache"
      TotalRSS := raw "total_rss"
      TotalRSSHuge := raw "total_rss_huge"
      TotalMappedFile := raw "total_mapped_file"
      TotalDirty := raw "total_dirty"
      TotalWriteback := raw "total_writeback"
      TotalPgPgIn := raw "total_pgpgin"
      TotalPgPgOut := raw "total_pgpgout"
      TotalPgFault := raw "total_pgfault"
      TotalPgMajFault := raw "total_pgmajfault"
      TotalInactiveAnon := raw "total_inactive_anon"
      TotalActiveAnon := raw "total_active_anon"
      TotalInactiveFile := raw "total_inactive_file"
      TotalActiveFile := raw "total_active_file"
      TotalUnevictable := raw "total_unevictable"
      Usage := usage
      Swap := swap
      Kernel := kernel
      KernelTCP := kernelTCP }

/-- The `memory.stat` counter keys paired with the snapshot field each one
populates, exactly as listed in `Stat`. -/
def memoryStatKeys : List (String × (MemoryStat → Nat)) :=
  [ ("cache", MemoryStat.Cache),
    ("rss", MemoryStat.RSS),
    ("rss_huge", MemoryStat.RSSHuge),
    ("mapped_file", MemoryStat.MappedFile),
    ("dirty", MemoryStat.Dirty),
    ("writeback", MemoryStat.Writeback),
    ("pgpgin", MemoryStat.PgPgIn),
    ("pgpgout", MemoryStat.PgPgOut),
    ("pgfault", MemoryStat.PgFault),
    ("pgmajfault", MemoryStat.PgMajFault),
    ("inactive_anon", MemoryStat.InactiveAnon),
    ("active_anon", MemoryStat.ActiveAnon),
    ("inactive_file", MemoryStat.InactiveFile),
    ("active_file", MemoryStat.ActiveFile),
    ("unevictable", MemoryStat.Unevictable),
    ("hierarchical_memory_limit", MemoryStat.HierarchicalMemoryLimit),
    ("hierarchical_memsw_limit", MemoryStat.HierarchicalSwapLimit),
    ("total_cache", MemoryStat.TotalCache),
    ("total_rss", MemoryStat.TotalRSS),
    ("total_rss_huge", MemoryStat.TotalRSSHuge),
    ("total_mapped_file", MemoryStat.TotalMappedFile),
    ("total_dirty", MemoryStat.TotalDirty),
    ("total_writeback", MemoryStat.TotalWriteback),
    ("total_pgpgin", MemoryStat.TotalPgPgIn),
    ("total_pgpgout", MemoryStat.TotalPgPgOut),
    ("total_pgfault", MemoryStat.TotalPgFault),
    ("total_pgmajfault", MemoryStat.TotalPgMajFault),
    ("total_inactive_anon", MemoryStat.TotalInactiveAnon),
    ("total_active_anon", MemoryStat.TotalActiveAnon),
    ("total_inactive_file", MemoryStat.TotalInactiveFile),
    ("total_active_file", MemoryStat.TotalActiveFile),
    ("total_unevictable", MemoryStat.TotalUnevictable) ]

/-! ### OOM event registration -/

/-- `writeEventFD`: open `cgroup.event_control` write-only and write
`"<efd> <cfd>"` (event descriptor first, control descriptor second); the
file is closed before the write error, if any, is returned. -/
def writeEventFD (w : World) (root : String) (cfd efd : Nat) :
    List FsOp × Option GoErr :=
  let p := filepathJoin root "cgroup.event_control"
  match w.openWrite p with
  | some e => ([FsOp.openFile p], some (GoErr.io e))
  | none =>
    let s := toString efd ++ " " ++ toString cfd
    match w.writeResult p s with
    | some e => ([FsOp.openFile p, FsOp.writeFile p s, FsOp.closeFile p], some (GoErr.io e))
    | none => ([FsOp.openFile p, FsOp.writeFile p s, FsOp.closeFile p], none)

/-- `(*memoryController).OOMEventFD`: open `memory.oom_control` (closed via
defer on every path), create an eventfd, register the pair through
`writeEventFD`; on registration failure the created eventfd is closed before
the error is returned, on success it is returned open. -/
def memoryController.OOMEventFD (m : memoryController) (w : World) (path : String) :
    List FsOp × Except GoErr Nat :=
  let root := m.Path path
  let cp := filepathJoin root "memory.oom_control"
  match w.openResult cp with
  | Except.error e => ([FsOp.openFile cp], Except.error (GoErr.io e))
  | Except.ok cfd =>
    match w.eventfd2 with
    | Except.error serr =>
      ([FsOp.openFile cp, FsOp.closeFile cp], Except.error (GoErr.errno serr))
    | Except.ok fd =>
      match writeEventFD w root cfd fd with
      | (ops, some e) =>
        (FsOp.openFile cp :: FsOp.eventfd fd :: ops ++ [FsOp.closeFD fd, FsOp.closeFile cp],
          Except.error e)
      | (ops, none) =>
        (FsOp.openFile cp :: FsOp.eventfd fd :: ops ++ [FsOp.closeFile cp],
          Except.ok fd)

/-! ### The prometheus collector

The `metric` descriptor type and the `cgroups.Cgroup` interface are outside
the included source; per the spec, a metric descriptor knows how to extract
zero or more labeled samples from a Stats snapshot, and a tracked cgroup's
`Stat` yields a snapshot or an error. Goroutine fan-out with a wait-group
barrier is modelled as the deterministic concatenation of every per-cgroup
collection, which fixes one interleaving of the sample stream. -/

/-- `cgroups.Stats`, restricted to the memory sub-record this file populates. -/
structure Stats where
  Memory : Option MemoryStat
deriving DecidableEq

/-- One exported prometheus sample. -/
structure Sample where
  series : String
  labels : List String
  value : Nat
deriving DecidableEq

/-- Modelled from the spec: a tracked cgroup, reduced to the one capability
the collector uses — `Stat()` returning a snapshot or an error. -/
structure Cgroup where
  statResult : Except GoErr Stats

/-- Modelled from the spec: a metric descriptor extracting the labeled
samples it exports for one cgroup's snapshot. -/
structure metric where
  collectSamples : String → Stats → List Sample

/-- The collector: the tracked-cgroup registry (an association from external
identifier to cgroup) and the static metric descriptor table. -/
structure Collector where
  cgroups : List (String × Cgroup)
  metrics : List metric

/-- `ErrAlreadyCollected`. -/
def ErrAlreadyCollected : GoErr := GoErr.msg "cgroup is already being collected"

/-- `(*Collector).collect`: one per-cgroup task; a Stat error is logged and
the cgroup skipped (no samples), otherwise every metric descriptor's samples
are emitted. -/
def Collector.collect (c : Collector) (id : String) (cg : Cgroup) : List Sample :=
  match cg.statResult with
  | Except.error _ => []
  | Except.ok stats => c.metrics.flatMap (fun m => m.collectSamples id stats)

/-- `(*Collector).Collect`: fan out one collection per tracked cgroup and
wait for all of them; the emitted stream is the union of the per-cgroup
sample lists, and no error is returned to the caller (the Go signature has
no error result). -/
def Collector.Collect (c : Collector) : List Sample :=
  c.cgroups.flatMap (fun p => c.collect p.1 p.2)

/-- `(*Collector).Add`: under the write lock, reject an identifier that is
already tracked with `ErrAlreadyCollected` and leave the registry unchanged;
otherwise insert the mapping. -/
def Collector.Add (c : Collector) (id : String) (cg : Cgroup) :
    Collector × Option GoErr :=
  match c.cgroups.lookup id with
  | some _ => (c, some ErrAlreadyCollected)
  | none => ({ c with cgroups := c.cgroups ++ [(id, cg)] }, none)

/-! ### Shared helpers and concrete fixtures -/

/-- Whether an `Except` is a success. -/
def isOkE : Except ε α → Bool
  | Except.ok _ => true
  | Except.error _ => false

/-- Lift a `set` result into a Go outcome (`nil` error is success). -/
def setOutcome : Option GoErr → GoOutcome
  | some e => GoOutcome.err e
  | none => GoOutcome.ok

/-- The write a single nilable setting produces: nothing when unset, one
decimal-text write when provided. -/
def optWrite (p : String) : Option Nat → List FsOp
  | none => []
  | some v => [FsOp.writeFile p (toString v)]

/-- A world in which every file-system operation succeeds. -/
def allOkWorld : World :=
  { mkdirResult := fun _ => none
    writeResult := fun _ _ => none
    readUintResult := fun _ => Except.ok 0
    readLines := fun _ => Except.ok []
    openResult := fun _ => Except.ok 3
    openWrite := fun _ => none
    eventfd2 := Except.ok 4 }

/-- Resources providing a zero memory limit and a positive swap limit. -/
def zeroLimitRes : LinuxResources :=
  { Memory := some
      { Limit := some 0, Swap := some 5, Kernel := none,
        KernelTCP := none, Swappiness := none },
    DisableOOMKiller := none }

/-- Resources providing a positive memory limit and swap limit. -/
def posLimitRes : LinuxResources :=
  { Memory := some
      { Limit := some 3, Swap := some 5, Kernel := none,
        KernelTCP := none, Swappiness := none },
    DisableOOMKiller := none }

/-- Resources providing only a kernel-memory limit. -/
def kernelRes : LinuxResources :=
  { Memory := some
      { Limit := none, Swap := none, Kernel := some 7,
        KernelTCP := none, Swappiness := none },
    DisableOOMKiller := none }

/-- A placeholder snapshot (all fields zero). -/
def zeroMemoryStat : MemoryStat :=
  { Cache := 0, RSS := 0, RSSHuge := 0, MappedFile := 0, Dirty := 0,
    Writeback := 0, PgPgIn := 0, PgPgOut := 0, PgFault := 0, PgMajFault := 0,
    InactiveAnon := 0, ActiveAnon := 0, InactiveFile := 0, ActiveFile := 0,
    Unevictable := 0, HierarchicalMemoryLimit := 0, HierarchicalSwapLimit := 0,
    TotalCache := 0, TotalRSS := 0, TotalRSSHuge := 0, TotalMappedFile := 0,
    TotalDirty := 0, TotalWriteback := 0, TotalPgPgIn := 0, TotalPgPgOut := 0,
    TotalPgFault := 0, TotalPgMajFault := 0, TotalInactiveAnon := 0,
    TotalActiveAnon := 0, TotalInactiveFile := 0, TotalActiveFile := 0,
    TotalUnevictable := 0,
    Usage := { Limit := 0, Usage := 0, Max := 0, Failcnt := 0 },
    Swap := { Limit := 0, Usage := 0, Max := 0, Failcnt := 0 },
    Kernel := { Limit := 0, Usage := 0, Max := 0, Failcnt := 0 },
    KernelTCP := { Limit := 0, Usage := 0, Max := 0, Failcnt := 0 } }

/-- A world whose `memory.stat` has `cache` and `rss` lines (no `dirty`)
and whose sixteen usage files all read successfully. -/
def statWorld : World :=
  { allOkWorld with
    readLines := fun _ => Except.ok ["cache 1024", "rss 2048"],
    readUintResult := fun _ => Except.ok 7 }

/-- A tracked cgroup whose `Stat` succeeds with an empty snapshot. -/
def goodCgroup : Cgroup := { statResult := Except.ok { Memory := none } }

/-- A tracked cgroup whose `Stat` fails. -/
def badCgroup : Cgroup := { statResult := Except.error (GoErr.msg "stat failed") }

/-- A metric descriptor exporting one sample labelled with the cgroup id. -/
def idMetric : metric :=
  { collectSamples := fun id _ => [{ series := "m", labels := [id], value := 1 }] }

/-- A collector tracking one good and one bad cgroup, with one descriptor. -/
def twoCollector : Collector :=
  { cgroups := [("good", goodCgroup), ("bad", badCgroup)], metrics := [idMetric] }

/-- The `memory.oom_control` file of a cgroup. -/
def oomControlPath (m : memoryController) (path : String) : String :=
  filepathJoin (m.Path path) "memory.oom_control"

/-- The `cgroup.event_control` file of a cgroup. -/
def eventControlPath (m : memoryController) (path : String) : String :=
  filepathJoin (m.Path path) "cgroup.event_control"

/-- A world in which every write fails with an opaque (non-EBUSY) error. -/
def failWriteWorld : World :=
  { allOkWorld with writeResult := fun _ _ => some (IOErr.other 1) }

/-- A world in which every write fails with `EBUSY`. -/
def busyWriteWorld : World :=
  { allOkWorld with writeResult := fun _ _ => some IOErr.ebusy }

/-- The `memory.kmem.limit_in_bytes` file of a cgroup. -/
def kmemPath (m : memoryController) (path : String) : String :=
  filepathJoin (m.Path path) "memory.kmem.limit_in_bytes"

/-- The `memory.stat` file of a cgroup. -/
def statFilePath (m : memoryController) (path : String) : String :=
  filepathJoin (m.Path path) "memory.stat"

/-- The `memory.limit_in_bytes` file of a cgroup. -/
def limitPath (m : memoryController) (path : String) : String :=
  filepathJoin (m.Path path) "memory.limit_in_bytes"

/-- The `memory.memsw.limit_in_bytes` file of a cgroup. -/
def swapPath (m : memoryController) (path : String) : String :=
  filepathJoin (m.Path path) "memory.memsw.limit_in_bytes"

/-- Resources mixing provided (including zero) and absent knobs, with the
OOM killer disabled. -/
def mixedRes : LinuxResources :=
  { Memory := some
      { Limit := some 0, Swap := none, Kernel := some 9,
        KernelTCP := none, Swappiness := some 30 },
    DisableOOMKiller := some true }

/-! ### Helper lemmas -/

theorem lookup_append_assoc (l1 l2 : List (String × Cgroup)) (k : String) :
    (l1 ++ l2).lookup k = ((l1.lookup k).orElse (fun _ => l2.lookup k)) := by
  induction l1 with
  | nil => simp [List.lookup]
  | cons hd tl ih =>
    cases hk : k == hd.1 with
    | true => simp [List.lookup, hk]
    | false => simp [List.lookup, hk, ih]

/-! ### Claims -/

/-- C7: for every non-empty relative path `p`, `Path p` is the controller
root joined with `p`, the root of `NewMemory r` being `r` joined with
`"memory"`; this holds for `p` containing sub-directory separators, and no
traversal sanitization is performed (a `..`-laden `p` escapes the root). -/
theorem path_is_root_join (r p : String) (h : p ≠ "") :
    (NewMemory r).Path p = filepathJoin (filepathJoin r "memory") p ∧
    (NewMemory "/sys/fs/cgroup").Path "mygroup" = "/sys/fs/cgroup/memory/mygroup" ∧
    (NewMemory "/sys/fs/cgroup").Path "sub/dir/group" = "/sys/fs/cgroup/memory/sub/dir/group" ∧
    (NewMemory "/sys/fs/cgroup").Path "../../x/y" = "/sys/fs/x/y" :=
  ⟨rfl, by decide, by decide, by decide⟩

theorem path_is_root_join_witness :
    (NewMemory "/sys/fs/cgroup").Path "mygroup" =
      filepathJoin (filepathJoin "/sys/fs/cgroup" "memory") "mygroup" :=
  (path_is_root_join "/sys/fs/cgroup" "mygroup" (by decide)).1

/-- C5: `Add` on an already-present identifier returns
`ErrAlreadyCollected` and leaves the registry unchanged (the same collector
value, so the existing entry is untouched); `Add` on a fresh identifier
inserts the mapping, returns no error, and maps every other identifier as
before. -/
theorem add_duplicate_rejected (c : Collector) (id : String) (cg : Cgroup) :
    (∀ cg0, c.cgroups.lookup id = some cg0 →
      c.Add id cg = (c, some ErrAlreadyCollected)) ∧
    (c.cgroups.lookup id = none →
      (c.Add id cg).2 = none ∧
      (c.Add id cg).1.cgroups.lookup id = some cg ∧
      ∀ id2, (id2 == id) = false →
        (c.Add id cg).1.cgroups.lookup id2 = c.cgroups.lookup id2) := by
  constructor
  · intro cg0 h
    unfold Collector.Add
    rw [h]
  · intro h
    unfold Collector.Add
    rw [h]
    refine ⟨rfl, ?_, ?_⟩
    · rw [lookup_append_assoc, h]
      simp [List.lookup]
    · intro id2 h2
      rw [lookup_append_assoc]
      cases hl : c.cgroups.lookup id2 with
      | some v => simp [Option.orElse]
      | none => simp [Option.orElse, List.lookup, h2]

theorem add_duplicate_rejected_witness :
    ({ cgroups := [("a", goodCgroup)], metrics := [] } : Collector).Add "a" badCgroup =
      (({ cgroups := [("a", goodCgroup)], metrics := [] } : Collector),
        some ErrAlreadyCollected) :=
  (add_duplicate_rejected { cgroups := [("a", goodCgroup)], metrics := [] } "a" badCgroup).1
    goodCgroup rfl

/-- C10: `Update` on a nil resources record dereferences it (panic) before
doing anything; `Create` on a nil resources record creates the directory
first and only then panics on the dereference; a non-nil record with an
absent `Memory` sub-record makes `Update` a no-op returning success and
makes `Create` succeed after only the directory creation. -/
theorem nil_resources_outside_domain (m : memoryController) (w : World)
    (path : String) (hmk : w.mkdirResult (m.Path path) = none) :
    m.Update w path none = ([], GoOutcome.panics) ∧
    m.Create w path none = ([FsOp.mkdirAll (m.Path path)], GoOutcome.panics) ∧
    (∀ d, m.Update w path (some { Memory := none, DisableOOMKiller := d }) =
      ([], GoOutcome.ok)) ∧
    (∀ d, m.Create w path (some { Memory := none, DisableOOMKiller := d }) =
      ([FsOp.mkdirAll (m.Path path)], GoOutcome.ok)) := by
  refine ⟨rfl, ?_, fun d => rfl, fun d => ?_⟩
  · simp [memoryController.Create, hmk]
  · simp [memoryController.Create, hmk]

theorem nil_resources_outside_domain_witness :
    (NewMemory "/c").Update allOkWorld "p" none = ([], GoOutcome.panics) ∧
    (NewMemory "/c").Create allOkWorld "p" none =
      ([FsOp.mkdirAll ((NewMemory "/c").Path "p")], GoOutcome.panics) :=
  ⟨(nil_resources_outside_domain (NewMemory "/c") allOkWorld "p" rfl).1,
   (nil_resources_outside_domain (NewMemory "/c") allOkWorld "p" rfl).2.1⟩

/-- C8: whenever the control file and the event descriptor have been
obtained, every string written to `cgroup.event_control` is the decimal
event descriptor, one space, then the decimal control descriptor; and a
successful registration did perform exactly that write. -/
theorem event_control_write_format (m : memoryController) (w : World)
    (path : String) (cfd fd : Nat)
    (hopen : w.openResult (oomControlPath m path) = Except.ok cfd)
    (hev : w.eventfd2 = Except.ok fd) :
    (∀ p s, FsOp.writeFile p s ∈ (m.OOMEventFD w path).1 →
      p = eventControlPath m path ∧ s = toString fd ++ " " ++ toString cfd) ∧
    ((m.OOMEventFD w path).2 = Except.ok fd →
      FsOp.writeFile (eventControlPath m path)
        (toString fd ++ " " ++ toString cfd) ∈ (m.OOMEventFD w path).1) := by
  rw [oomControlPath] at hopen
  cases h1 : w.openWrite (filepathJoin (m.Path path) "cgroup.event_control") with
  | some e =>
    simp [memoryController.OOMEventFD, writeEventFD, eventControlPath, hopen, hev, h1]
  | none =>
    cases h2 : w.writeResult (filepathJoin (m.Path path) "cgroup.event_control")
        (toString fd ++ " " ++ toString cfd) with
    | some e =>
      simp [memoryController.OOMEventFD, writeEventFD, eventControlPath, hopen, hev, h1, h2]
    | none =>
      simp [memoryController.OOMEventFD, writeEventFD, eventControlPath, hopen, hev, h1, h2]

theorem event_control_write_format_witness :
    FsOp.writeFile (eventControlPath (NewMemory "/c") "p")
      (toString 4 ++ " " ++ toString 3) ∈
      ((NewMemory "/c").OOMEventFD allOkWorld "p").1 :=
  (event_control_write_format (NewMemory "/c") allOkWorld "p" 3 4 rfl rfl).2 rfl

/-- C9: once the control file is open and the event descriptor created, a
failing registration write closes the created event descriptor (and, via
the deferred close, the control file) before the error is returned; a
successful registration returns the event descriptor without closing it. -/
theorem event_fd_closed_on_failure (m : memoryController) (w : World)
    (path : String) (cfd fd : Nat)
    (hopen : w.openResult (oomControlPath m path) = Except.ok cfd)
    (hev : w.eventfd2 = Except.ok fd) :
    (∀ e, (writeEventFD w (m.Path path) cfd fd).2 = some e →
      (m.OOMEventFD w path).2 = Except.error e ∧
      FsOp.closeFD fd ∈ (m.OOMEventFD w path).1 ∧
      FsOp.closeFile (oomControlPath m path) ∈ (m.OOMEventFD w path).1) ∧
    ((writeEventFD w (m.Path path) cfd fd).2 = none →
      (m.OOMEventFD w path).2 = Except.ok fd ∧
      FsOp.closeFD fd ∉ (m.OOMEventFD w path).1) := by
  rw [oomControlPath] at hopen
  cases h1 : w.openWrite (filepathJoin (m.Path path) "cgroup.event_control") with
  | some e =>
    simp [memoryController.OOMEventFD, writeEventFD, oomControlPath, hopen, hev, h1]
  | none =>
    cases h2 : w.writeResult (filepathJoin (m.Path path) "cgroup.event_control")
        (toString fd ++ " " ++ toString cfd) with
    | some e =>
      simp [memoryController.OOMEventFD, writeEventFD, oomControlPath, hopen, hev, h1, h2]
    | none =>
      simp [memoryController.OOMEventFD, writeEventFD, oomControlPath, hopen, hev, h1, h2]

theorem event_fd_closed_on_failure_witness :
    ((NewMemory "/c").OOMEventFD failWriteWorld "p").2 =
      Except.error (GoErr.io (IOErr.other 1)) ∧
    FsOp.closeFD 4 ∈ ((NewMemory "/c").OOMEventFD failWriteWorld "p").1 :=
  ⟨((event_fd_closed_on_failure (NewMemory "/c") failWriteWorld "p" 3 4 rfl rfl).1
      (GoErr.io (IOErr.other 1)) rfl).1,
   ((event_fd_closed_on_failure (NewMemory "/c") failWriteWorld "p" 3 4 rfl rfl).1
      (GoErr.io (IOErr.other 1)) rfl).2.1⟩

theorem set_all_writes_ok (m : memoryController) (w : World) (path : String)
    (hw : ∀ p d, w.writeResult p d = none) (ts : List memorySettings) :
    m.set w path ts =
      (ts.flatMap (fun t =>
        optWrite (filepathJoin (m.Path path) ("memory." ++ t.name)) t.value), none) := by
  induction ts with
  | nil => rfl
  | cons t rest ih =>
    cases hv : t.value with
    | none => simp [memoryController.set, hv, ih, optWrite]
    | some v => simp [memoryController.set, hv, hw, ih, optWrite]

/-- C6: with every write succeeding, applying the settings list derived
from a resources record writes exactly the files whose knob is provided, in
list order, as decimal text (a zero knob is written as `0`, an unset knob
not at all), and the OOM-control entry carries value `1` exactly when the
disable flag is provided and true — it is never a `0`. -/
theorem settings_write_exactly_provided (m : memoryController) (w : World)
    (path : String) (res : LinuxResources) (mem : LinuxMemory)
    (hm : res.Memory = some mem) (hw : ∀ p d, w.writeResult p d = none) :
    (m.set w path (getMemorySettings res)).1 =
      optWrite (filepathJoin (m.Path path) "memory.limit_in_bytes") mem.Limit ++
      optWrite (filepathJoin (m.Path path) "memory.memsw.limit_in_bytes") mem.Swap ++
      optWrite (filepathJoin (m.Path path) "memory.kmem.limit_in_bytes") mem.Kernel ++
      optWrite (filepathJoin (m.Path path) "memory.kmem.tcp.limit_in_bytes") mem.KernelTCP ++
      optWrite (filepathJoin (m.Path path) "memory.oom_control") (getOomControlValue res) ++
      optWrite (filepathJoin (m.Path path) "memory.swappiness") mem.Swappiness ∧
    (m.set w path (getMemorySettings res)).2 = none ∧
    getOomControlValue res =
      (if res.DisableOOMKiller = some true then some 1 else none) := by
  rw [set_all_writes_ok m w path hw]
  refine ⟨?_, rfl, ?_⟩
  · simp [getMemorySettings, hm]
  · rcases hd : res.DisableOOMKiller with _ | b
    · simp [getOomControlValue, hd]
    · cases b <;> simp [getOomControlValue, hd]

theorem settings_write_exactly_provided_witness :
    ((NewMemory "/c").set allOkWorld "p" (getMemorySettings mixedRes)).1 =
      optWrite (filepathJoin ((NewMemory "/c").Path "p") "memory.limit_in_bytes") (some 0) ++
      optWrite (filepathJoin ((NewMemory "/c").Path "p") "memory.memsw.limit_in_bytes") none ++
      optWrite (filepathJoin ((NewMemory "/c").Path "p") "memory.kmem.limit_in_bytes") (some 9) ++
      optWrite (filepathJoin ((NewMemory "/c").Path "p") "memory.kmem.tcp.limit_in_bytes") none ++
      optWrite (filepathJoin ((NewMemory "/c").Path "p") "memory.oom_control")
        (getOomControlValue mixedRes) ++
      optWrite (filepathJoin ((NewMemory "/c").Path "p") "memory.swappiness") (some 30) :=
  (settings_write_exactly_provided (NewMemory "/c") allOkWorld "p" mixedRes
    { Limit := some 0, Swap := none, Kernel := some 9,
      KernelTCP := none, Swappiness := some 30 }
    rfl (fun _ _ => rfl)).1

/-- C3: when resources provide a kernel-memory limit and the directory has
been created, `Create` writes `1` then `-1` to `memory.kmem.limit_in_bytes`
before any settings write; an `EBUSY` failure of either probe write is
returned as the descriptive tasks-or-children message, any other failure is
returned unchanged. -/
theorem kmem_probe_writes (m : memoryController) (w : World) (path : String)
    (res : LinuxResources) (mem : LinuxMemory) (k : Nat)
    (hmk : w.mkdirResult (m.Path path) = none)
    (hm : res.Memory = some mem) (hk : mem.Kernel = some k) :
    (∀ e, w.writeResult (kmemPath m path) "1" = some e →
      m.Create w path (some res) =
        ([FsOp.mkdirAll (m.Path path), FsOp.writeFile (kmemPath m path) "1"],
          GoOutcome.err (checkEBUSY e))) ∧
    (∀ e, w.writeResult (kmemPath m path) "1" = none →
      w.writeResult (kmemPath m path) "-1" = some e →
      m.Create w path (some res) =
        ([FsOp.mkdirAll (m.Path path), FsOp.writeFile (kmemPath m path) "1",
          FsOp.writeFile (kmemPath m path) "-1"], GoOutcome.err (checkEBUSY e))) ∧
    (w.writeResult (kmemPath m path) "1" = none →
      w.writeResult (kmemPath m path) "-1" = none →
      m.Create w path (some res) =
        (FsOp.mkdirAll (m.Path path) :: FsOp.writeFile (kmemPath m path) "1" ::
          FsOp.writeFile (kmemPath m path) "-1" ::
          (m.set w path (getMemorySettings res)).1,
          setOutcome (m.set w path (getMemorySettings res)).2)) ∧
    checkEBUSY IOErr.ebusy = GoErr.msg kmemBusyMessage ∧
    (∀ t, checkEBUSY (IOErr.other t) = GoErr.io (IOErr.other t)) := by
  refine ⟨?_, ?_, ?_, rfl, fun t => rfl⟩
  · intro e h1
    rw [kmemPath] at h1
    simp [memoryController.Create, hmk, hm, hk, kmemPath, h1]
  · intro e h1 h2
    rw [kmemPath] at h1 h2
    simp [memoryController.Create, hmk, hm, hk, kmemPath, h1, h2]
  · intro h1 h2
    rw [kmemPath] at h1 h2
    cases hset : m.set w path (getMemorySettings res) with
    | mk ops r =>
      cases r with
      | none => simp [memoryController.Create, hmk, hm, hk, kmemPath, h1, h2, hset, setOutcome]
      | some e => simp [memoryController.Create, hmk, hm, hk, kmemPath, h1, h2, hset, setOutcome]

theorem kmem_probe_writes_witness :
    (NewMemory "/c").Create busyWriteWorld "p" (some kernelRes) =
      ([FsOp.mkdirAll ((NewMemory "/c").Path "p"),
        FsOp.writeFile (kmemPath (NewMemory "/c") "p") "1"],
        GoOutcome.err (GoErr.msg kmemBusyMessage)) :=
  (kmem_probe_writes (NewMemory "/c") busyWriteWorld "p" kernelRes
    { Limit := none, Swap := none, Kernel := some 7,
      KernelTCP := none, Swappiness := none } 7 rfl rfl rfl).1 IOErr.ebusy rfl

/-- C1 (amended): when both the memory limit and the swap limit are
provided with positive values, `Update` first reads the current on-disk
memory limit; an error there aborts the call before any write; otherwise
the swap limit is written before the memory limit exactly when the current
value is smaller than the new swap limit (the first two settings entries
being exchanged in that case), and memory before swap otherwise. -/
theorem update_reorders_swap_and_memory (m : memoryController) (w : World)
    (path : String) (res : LinuxResources) (mem : LinuxMemory) (L S : Nat)
    (hm : res.Memory = some mem) (hL : mem.Limit = some L) (hS : mem.Swap = some S)
    (hLpos : 0 < L) (hSpos : 0 < S) :
    (∀ e, w.readUintResult (limitPath m path) = Except.error e →
      m.Update w path (some res) =
        ([FsOp.readFile (limitPath m path)], GoOutcome.err (GoErr.io e))) ∧
    (∀ current, w.readUintResult (limitPath m path) = Except.ok current →
      m.Update w path (some res) =
        (FsOp.readFile (limitPath m path) ::
          (m.set w path (if current < S then swapFirstTwo (getMemorySettings res)
            else getMemorySettings res)).1,
          setOutcome (m.set w path (if current < S then swapFirstTwo (getMemorySettings res)
            else getMemorySettings res)).2)) ∧
    (∀ current, w.readUintResult (limitPath m path) = Except.ok current →
      (∀ q d, w.writeResult q d = none) →
      (m.Update w path (some res)).1 =
        FsOp.readFile (limitPath m path) ::
          (if current < S then
            [FsOp.writeFile (swapPath m path) (toString S),
             FsOp.writeFile (limitPath m path) (toString L)]
           else
            [FsOp.writeFile (limitPath m path) (toString L),
             FsOp.writeFile (swapPath m path) (toString S)]) ++
          (optWrite (filepathJoin (m.Path path) "memory.kmem.limit_in_bytes") mem.Kernel ++
           optWrite (filepathJoin (m.Path path) "memory.kmem.tcp.limit_in_bytes") mem.KernelTCP ++
           optWrite (filepathJoin (m.Path path) "memory.oom_control") (getOomControlValue res) ++
           optWrite (filepathJoin (m.Path path) "memory.swappiness") mem.Swappiness)) := by
  have hg1 : updGuard mem.Limit = true := by rw [hL]; simp [updGuard, hLpos]
  have hg2 : updGuard mem.Swap = true := by rw [hS]; simp [updGuard, hSpos]
  have hgd : mem.Swap.getD 0 = S := by rw [hS]; rfl
  refine ⟨?_, ?_, ?_⟩
  · intro e h
    rw [limitPath] at h
    simp [memoryController.Update, hm, hg1, hg2, limitPath, h]
  · intro current h
    rw [limitPath] at h
    cases hset : m.set w path (if current < S then swapFirstTwo (getMemorySettings res)
        else getMemorySettings res) with
    | mk ops r =>
      cases r with
      | none =>
        simp [memoryController.Update, hm, hg1, hg2, limitPath, h, hgd, hset, setOutcome]
      | some e =>
        simp [memoryController.Update, hm, hg1, hg2, limitPath, h, hgd, hset, setOutcome]
  · intro current h hw
    rw [limitPath] at h
    by_cases hc : current < S
    · rw [show (m.Update w path (some res)).1 =
          FsOp.readFile (filepathJoin (m.Path path) "memory.limit_in_bytes") ::
            (m.set w path (swapFirstTwo (getMemorySettings res))).1 from ?_]
      · rw [set_all_writes_ok m w path hw]
        simp [getMemorySettings, hm, swapFirstTwo, optWrite, hL, hS, limitPath,
          swapPath, hc]
      · cases hset : m.set w path (swapFirstTwo (getMemorySettings res)) with
        | mk ops r =>
          cases r with
          | none =>
            simp [memoryController.Update, hm, hg1, hg2, h, hgd, hc, hset]
          | some e =>
            simp [memoryController.Update, hm, hg1, hg2, h, hgd, hc, hset]
    · rw [show (m.Update w path (some res)).1 =
          FsOp.readFile (filepathJoin (m.Path path) "memory.limit_in_bytes") ::
            (m.set w path (getMemorySettings res)).1 from ?_]
      · rw [set_all_writes_ok m w path hw]
        simp [getMemorySettings, hm, optWrite, hL, hS, limitPath, swapPath, hc]
      · cases hset : m.set w path (getMemorySettings res) with
        | mk ops r =>
          cases r with
          | none =>
            simp [memoryController.Update, hm, hg1, hg2, h, hgd, hc, hset]
          | some e =>
            simp [memoryController.Update, hm, hg1, hg2, h, hgd, hc, hset]

theorem update_reorders_swap_and_memory_witness :
    ((NewMemory "/c").Update { allOkWorld with readUintResult := fun _ => Except.ok 2 }
        "p" (some posLimitRes)).1 =
      FsOp.readFile (limitPath (NewMemory "/c") "p") ::
        [FsOp.writeFile (swapPath (NewMemory "/c") "p") (toString 5),
         FsOp.writeFile (limitPath (NewMemory "/c") "p") (toString 3)] ++
        (optWrite (filepathJoin ((NewMemory "/c").Path "p") "memory.kmem.limit_in_bytes") none ++
         optWrite (filepathJoin ((NewMemory "/c").Path "p") "memory.kmem.tcp.limit_in_bytes") none ++
         optWrite (filepathJoin ((NewMemory "/c").Path "p") "memory.oom_control")
           (getOomControlValue posLimitRes) ++
         optWrite (filepathJoin ((NewMemory "/c").Path "p") "memory.swappiness") none) := by
  have h := (update_reorders_swap_and_memory (NewMemory "/c")
    { allOkWorld with readUintResult := fun _ => Except.ok 2 } "p" posLimitRes
    { Limit := some 3, Swap := some 5, Kernel := none,
      KernelTCP := none, Swappiness := none } 3 5
    rfl rfl rfl (by decide) (by decide)).2.2 2 rfl (fun _ _ => rfl)
  rw [h]
  simp

/-- C1 counterexample to the claim as stated: with a memory limit provided
as zero and a swap limit provided as five, both limits are being updated in
the same call (both files are written), yet no read of the current
`memory.limit_in_bytes` happens — the literal claim requires the update to
begin with that read. -/
theorem update_zero_limit_skips_read :
    ((NewMemory "/c").Update allOkWorld "p" (some zeroLimitRes)).1 =
      [FsOp.writeFile (limitPath (NewMemory "/c") "p") "0",
       FsOp.writeFile (swapPath (NewMemory "/c") "p") "5"] ∧
    ∀ q, FsOp.readFile q ∉ ((NewMemory "/c").Update allOkWorld "p" (some zeroLimitRes)).1 := by
  have h : ((NewMemory "/c").Update allOkWorld "p" (some zeroLimitRes)).1 =
      [FsOp.writeFile (limitPath (NewMemory "/c") "p") "0",
       FsOp.writeFile (swapPath (NewMemory "/c") "p") "5"] := by decide
  refine ⟨h, ?_⟩
  intro q hq
  rw [h] at hq
  simp at hq

theorem flatMap_collect_filter (c : Collector) (l : List (String × Cgroup)) :
    l.flatMap (fun p => c.collect p.1 p.2) =
      (l.filter (fun p => isOkE p.2.statResult)).flatMap
        (fun p => c.collect p.1 p.2) := by
  induction l with
  | nil => rfl
  | cons hd tl ih =>
    cases hs : hd.2.statResult with
    | ok st =>
      have hc : isOkE hd.2.statResult = true := by rw [hs]; rfl
      rw [List.flatMap_cons, List.filter_cons, ih, hc, if_pos rfl, List.flatMap_cons]
    | error e =>
      have hc : isOkE hd.2.statResult = false := by rw [hs]; rfl
      have hcol : c.collect hd.1 hd.2 = [] := by
        unfold Collector.collect
        rw [hs]
      rw [List.flatMap_cons, List.filter_cons, ih, hc, hcol]
      simp

/-- C2: when exactly one tracked cgroup's `Stat` fails, `Collect` still
emits every sample of every metric descriptor for each of the other
cgroups, the failing cgroup contributes no sample at all (the collected
stream equals that of the registry with the failing entries dropped), and
the per-cgroup task of the failing cgroup completes with the empty
emission; `Collect` returns a plain sample list, no error, having run every
per-cgroup task. -/
theorem collect_isolates_failing_cgroup (c : Collector) (bid : String)
    (bcg : Cgroup) (e : GoErr)
    (hmem : (bid, bcg) ∈ c.cgroups)
    (hbad : bcg.statResult = Except.error e)
    (hrest : ∀ p ∈ c.cgroups, p ≠ (bid, bcg) → isOkE p.2.statResult = true) :
    (∀ id cg stats mm s, (id, cg) ∈ c.cgroups → cg.statResult = Except.ok stats →
      mm ∈ c.metrics → s ∈ mm.collectSamples id stats → s ∈ c.Collect) ∧
    c.Collect = Collector.Collect
      { cgroups := c.cgroups.filter (fun p => isOkE p.2.statResult),
        metrics := c.metrics } ∧
    c.collect bid bcg = [] := by
  refine ⟨?_, ?_, ?_⟩
  · intro id cg stats mm s hcgm hok hmm hs
    unfold Collector.Collect
    refine List.mem_flatMap.mpr ⟨(id, cg), hcgm, ?_⟩
    unfold Collector.collect
    rw [hok]
    exact List.mem_flatMap.mpr ⟨mm, hmm, hs⟩
  · exact flatMap_collect_filter c c.cgroups
  · simp [Collector.collect, hbad]

theorem collect_isolates_failing_cgroup_witness :
    ({ series := "m", labels := ["good"], value := 1 } : Sample) ∈
      twoCollector.Collect ∧
    twoCollector.collect "bad" badCgroup = [] := by
  have h := collect_isolates_failing_cgroup twoCollector "bad" badCgroup
    (GoErr.msg "stat failed")
    (List.mem_cons_of_mem _ (List.mem_cons_self _ _)) rfl
    (by
      intro p hp hne
      rcases List.mem_cons.mp hp with rfl | hp2
      · rfl
      · rcases List.mem_cons.mp hp2 with rfl | hp3
        · exact absurd rfl hne
        · cases hp3)
  exact ⟨h.1 "good" goodCgroup { Memory := none } idMetric
      { series := "m", labels := ["good"], value := 1 }
      (List.mem_cons_self _ _) rfl (List.mem_cons_self _ _)
      (List.mem_cons_self _ _),
    h.2.2⟩

theorem isOkE_ok (v : α) : isOkE (Except.ok v : Except ε α) = true := rfl

theorem isOkE_error (e : ε) : isOkE (Except.error e : Except ε α) = false := rfl

theorem parseLines_isOk (ls : List String) : ∀ acc,
    isOkE (parseLines ls acc) = true ↔ ∀ l ∈ ls, isOkE (parseKV l) = true := by
  induction ls with
  | nil => intro acc; simp [parseLines, isOkE]
  | cons l rest ih =>
    intro acc
    cases hp : parseKV l with
    | error e => simp [parseLines, hp, isOkE]
    | ok kv =>
      cases kv with
      | mk k v =>
        simp only [parseLines, hp, ih, List.forall_mem_cons]
        simp [hp, isOkE]

theorem parseLines_absent (k : String) : ∀ (ls : List String) (acc g : String → Nat),
    parseLines ls acc = Except.ok g →
    (∀ l ∈ ls, ∀ v, parseKV l ≠ Except.ok (k, v)) → g k = acc k := by
  intro ls
  induction ls with
  | nil =>
    intro acc g h habs
    injection h with h2
    rw [← h2]
  | cons l rest ih =>
    intro acc g h habs
    cases hp : parseKV l with
    | error e =>
      rw [parseLines, hp] at h
      cases h
    | ok kv =>
      cases kv with
      | mk k1 v =>
        rw [parseLines, hp] at h
        have hk1 : k1 ≠ k := fun he =>
          habs l (List.mem_cons_self _ _) v (by rw [hp, he])
        have hrec := ih (fun s => if s = k1 then v else acc s) g h
          (fun l2 h2 v2 => habs l2 (List.mem_cons_of_mem _ h2) v2)
        rw [hrec]
        show (if k = k1 then v else acc k) = acc k
        exact if_neg (fun hh => hk1 hh.symm)

theorem readMemoryEntry_isOk (w : World) (dir mod : String) :
    isOkE (readMemoryEntry w dir mod) = true ↔
      ∀ n ∈ entryFileNames,
        isOkE (w.readUintResult (filepathJoin dir (statEntryFile mod n))) = true := by
  unfold readMemoryEntry
  cases h1 : w.readUintResult (filepathJoin dir (statEntryFile mod "usage_in_bytes")) with
  | error e => simp [entryFileNames, h1, isOkE]
  | ok u =>
    cases h2 : w.readUintResult (filepathJoin dir (statEntryFile mod "max_usage_in_bytes")) with
    | error e => simp [entryFileNames, h1, h2, isOkE]
    | ok mx =>
      cases h3 : w.readUintResult (filepathJoin dir (statEntryFile mod "failcnt")) with
      | error e => simp [entryFileNames, h1, h2, h3, isOkE]
      | ok fc =>
        cases h4 : w.readUintResult (filepathJoin dir (statEntryFile mod "limit_in_bytes")) with
        | error e => simp [entryFileNames, h1, h2, h3, h4, isOkE]
        | ok li => simp [entryFileNames, h1, h2, h3, h4, isOkE]

theorem stat_ok_fields (m : memoryController) (w : World) (path : String)
    (st : MemoryStat) (hst : m.Stat w path = Except.ok st) :
    ∃ g, m.parseStats w path = Except.ok g ∧
      ∀ kf ∈ memoryStatKeys, kf.2 st = g kf.1 := by
  cases h0 : m.parseStats w path with
  | error e =>
    unfold memoryController.Stat at hst
    rw [h0] at hst
    simp at hst
  | ok g =>
    cases q1 : readMemoryEntry w (m.Path path) "" with
    | error e1 =>
      unfold memoryController.Stat at hst
      rw [h0, q1] at hst
      simp [ioe] at hst
    | ok u1 =>
      cases q2 : readMemoryEntry w (m.Path path) "memsw" with
      | error e2 =>
        unfold memoryController.Stat at hst
        rw [h0, q1, q2] at hst
        simp [ioe] at hst
      | ok u2 =>
        cases q3 : readMemoryEntry w (m.Path path) "kmem" with
        | error e3 =>
          unfold memoryController.Stat at hst
          rw [h0, q1, q2, q3] at hst
          simp [ioe] at hst
        | ok u3 =>
          cases q4 : readMemoryEntry w (m.Path path) "kmem.tcp" with
          | error e4 =>
            unfold memoryController.Stat at hst
            rw [h0, q1, q2, q3, q4] at hst
            simp [ioe] at hst
          | ok u4 =>
            unfold memoryController.Stat at hst
            rw [h0, q1, q2, q3, q4] at hst
            simp only [ioe, Except.ok.injEq] at hst
            refine ⟨g, rfl, ?_⟩
            intro kf hkf
            rw [← hst]
            fin_cases hkf <;> rfl

/-- C4: `Stat` succeeds exactly when `memory.stat` is readable with every
line well-formed and all sixteen dimension-qualified usage files are
readable; a key absent from `memory.stat` never causes failure and its
snapshot field is zero. -/
theorem stat_failure_characterization (m : memoryController) (w : World)
    (path : String) :
    (isOkE (m.Stat w path) = true ↔
      ((∃ lines, w.readLines (statFilePath m path) = Except.ok lines ∧
          ∀ l ∈ lines, isOkE (parseKV l) = true) ∧
        ∀ mod ∈ entryModules, ∀ n ∈ entryFileNames,
          isOkE (w.readUintResult
            (filepathJoin (m.Path path) (statEntryFile mod n))) = true)) ∧
    (∀ lines k f st, w.readLines (statFilePath m path) = Except.ok lines →
      (k, f) ∈ memoryStatKeys →
      (∀ l ∈ lines, ∀ v, parseKV l ≠ Except.ok (k, v)) →
      m.Stat w path = Except.ok st → f st = 0) := by
  constructor
  · rw [statFilePath]
    cases hr : w.readLines (filepathJoin (m.Path path) "memory.stat") with
    | error e =>
      simp [memoryController.Stat, memoryController.parseStats, hr, isOkE_error]
    | ok lines =>
      cases hp : parseLines lines (fun _ => 0) with
      | error e =>
        have hfalse : ¬ ∀ l ∈ lines, isOkE (parseKV l) = true := by
          rw [← parseLines_isOk lines (fun _ => 0), hp]
          simp [isOkE]
        simp [memoryController.Stat, memoryController.parseStats, hr, hp, isOkE_error,
          hfalse]
      | ok g =>
        cases q1 : readMemoryEntry w (m.Path path) "" with
        | error e1 =>
          have hfalse : ¬ ∀ n ∈ entryFileNames,
              isOkE (w.readUintResult
                (filepathJoin (m.Path path) (statEntryFile "" n))) = true := by
            rw [← readMemoryEntry_isOk, q1]
            simp [isOkE]
          simp [memoryController.Stat, memoryController.parseStats, hr, hp, q1,
            ioe, isOkE_ok, isOkE_error, entryModules, hfalse]
        | ok u1 =>
          cases q2 : readMemoryEntry w (m.Path path) "memsw" with
          | error e2 =>
            have hfalse : ¬ ∀ n ∈ entryFileNames,
                isOkE (w.readUintResult
                  (filepathJoin (m.Path path) (statEntryFile "memsw" n))) = true := by
              rw [← readMemoryEntry_isOk, q2]
              simp [isOkE]
            simp [memoryController.Stat, memoryController.parseStats, hr, hp, q1, q2,
              ioe, isOkE_ok, isOkE_error, entryModules, hfalse]
          | ok u2 =>
            cases q3 : readMemoryEntry w (m.Path path) "kmem" with
            | error e3 =>
              have hfalse : ¬ ∀ n ∈ entryFileNames,
                  isOkE (w.readUintResult
                    (filepathJoin (m.Path path) (statEntryFile "kmem" n))) = true := by
                rw [← readMemoryEntry_isOk, q3]
                simp [isOkE]
              simp [memoryController.Stat, memoryController.parseStats, hr, hp, q1, q2,
                q3, ioe, isOkE_ok, isOkE_error, entryModules, hfalse]
            | ok u3 =>
              cases q4 : readMemoryEntry w (m.Path path) "kmem.tcp" with
              | error e4 =>
                have hfalse : ¬ ∀ n ∈ entryFileNames,
                    isOkE (w.readUintResult
                      (filepathJoin (m.Path path) (statEntryFile "kmem.tcp" n))) = true := by
                  rw [← readMemoryEntry_isOk, q4]
                  simp [isOkE]
                simp [memoryController.Stat, memoryController.parseStats, hr, hp, q1,
                  q2, q3, q4, ioe, isOkE_ok, isOkE_error, entryModules, hfalse]
              | ok u4 =>
                have hparse : ∀ l ∈ lines, isOkE (parseKV l) = true := by
                  rw [← parseLines_isOk lines (fun _ => 0), hp]
                  rfl
                have he1 : ∀ n ∈ entryFileNames,
                    isOkE (w.readUintResult
                      (filepathJoin (m.Path path) (statEntryFile "" n))) = true :=
                  (readMemoryEntry_isOk w (m.Path path) "").mp (by rw [q1]; rfl)
                have he2 : ∀ n ∈ entryFileNames,
                    isOkE (w.readUintResult
                      (filepathJoin (m.Path path) (statEntryFile "memsw" n))) = true :=
                  (readMemoryEntry_isOk w (m.Path path) "memsw").mp (by rw [q2]; rfl)
                have he3 : ∀ n ∈ entryFileNames,
                    isOkE (w.readUintResult
                      (filepathJoin (m.Path path) (statEntryFile "kmem" n))) = true :=
                  (readMemoryEntry_isOk w (m.Path path) "kmem").mp (by rw [q3]; rfl)
                have he4 : ∀ n ∈ entryFileNames,
                    isOkE (w.readUintResult
                      (filepathJoin (m.Path path) (statEntryFile "kmem.tcp" n))) = true :=
                  (readMemoryEntry_isOk w (m.Path path) "kmem.tcp").mp (by rw [q4]; rfl)
                simp [memoryController.Stat, memoryController.parseStats, hr, hp, q1,
                  q2, q3, q4, ioe, isOkE_ok, entryModules]
                exact ⟨hparse, he1, he2, he3, he4⟩
  · intro lines k f st hread hkf habs hst
    obtain ⟨g, hg, hfields⟩ := stat_ok_fields m w path st hst
    rw [memoryController.parseStats, statFilePath] at *
    rw [hread] at hg
    have h0 : g k = 0 :=
      parseLines_absent k lines (fun _ => 0) g hg habs
    have hf : f st = g k := hfields (k, f) hkf
    rw [hf, h0]

theorem stat_failure_characterization_witness :
    isOkE ((NewMemory "/c").Stat statWorld "p") = true ∧
    (((NewMemory "/c").Stat statWorld "p").toOption.getD zeroMemoryStat).Dirty = 0 := by
  have hthm := stat_failure_characterization (NewMemory "/c") statWorld "p"
  constructor
  · exact hthm.1.mpr
      ⟨⟨["cache 1024", "rss 2048"], rfl, by decide⟩, fun mod _ n _ => rfl⟩
  · refine hthm.2 ["cache 1024", "rss 2048"] "dirty" MemoryStat.Dirty
      (((NewMemory "/c").Stat statWorld "p").toOption.getD zeroMemoryStat)
      rfl ?_ ?_ ?_
    · exact List.mem_cons_of_mem _ (List.mem_cons_of_mem _ (List.mem_cons_of_mem _
        (List.mem_cons_of_mem _ (List.mem_cons_self _ _))))
    · intro l hl v h
      fin_cases hl
      · rw [show parseKV "cache 1024" = Except.ok ("cache", 1024) from rfl] at h
        simp at h
      · rw [show parseKV "rss 2048" = Except.ok ("rss", 2048) from rfl] at h
        simp at h
    · rfl
